import Mathlib

/-!
Verification development for the OptiMax repository.

The definitions below are a shallow embedding of the Python sources:
  * `src/judge.py` — solver-output loading, execution-status classification,
    the three-layer arbitration (programmatic fast path, LLM comparison,
    sanity-check override) and verdict construction;
  * `src/backend/optimind.py` — code-block extraction, the objective-value
    trailer patch, and the execute-and-debug repair loop;
  * `src/optimind.py` — the single-pass pipeline's objective-artifact reader
    and the `SOLUTION_TEMPLATE` trailer;
  * `src/backend/optimus_pipeline/step05_objective_model.py` together with
    `src/optimus_utils.py` — the `=====`-delimited extractor and its retry
    loop.

File reads, LLM calls and subprocess executions are modelled as explicit
inputs (option-valued file contents, response oracles indexed by call
count).  Python strings are Lean `String`s; Python `float` parsing is
modelled by `PyFloat` with exact rational values for finite results.
-/

namespace OptiMax

/-! ## Python string primitives -/

/-- Whitespace characters stripped by Python `str.strip()` (ASCII subset). -/
def pyWsChar (c : Char) : Bool :=
  c = ' ' || c = '\t' || c = '\n' || c = '\r' || c = Char.ofNat 11 || c = Char.ofNat 12

/-- Drop leading Python whitespace from a character list. -/
def dropLeadingWs : List Char → List Char
  | [] => []
  | c :: cs => if pyWsChar c then dropLeadingWs cs else c :: cs

/-- Python `str.strip()`. -/
def pyStrip (s : String) : String :=
  String.mk ((dropLeadingWs ((dropLeadingWs s.toList).reverse)).reverse)

/-- Whether `pre` is a prefix of `cs` (character lists). -/
def startsWithChars : List Char → List Char → Bool
  | [], _ => true
  | _ :: _, [] => false
  | a :: as, b :: bs => a = b && startsWithChars as bs

/-- Whether `needle` occurs as a contiguous substring of `cs`. -/
def hasSubChars (needle : List Char) : List Char → Bool
  | [] => needle.isEmpty
  | c :: cs => startsWithChars needle (c :: cs) || hasSubChars needle cs

/-- Python `needle in hay` for strings. -/
def pyContainsSub (hay needle : String) : Bool :=
  hasSubChars needle.toList hay.toList

/-- Python `str.upper()` (ASCII letters). -/
def pyUpper (s : String) : String :=
  String.mk (s.toList.map Char.toUpper)

/-- Python `str.startswith`. -/
def pyStartsWith (s pre : String) : Bool :=
  startsWithChars pre.toList s.toList

/-- Python `str.endswith`. -/
def pyEndsWith (s suf : String) : Bool :=
  startsWithChars suf.toList.reverse s.toList.reverse

/-- First index at which `needle` occurs in `cs`, counting from `i`. -/
def findSubAux (needle : List Char) : List Char → Nat → Option Nat
  | [], i => if needle.isEmpty then some i else none
  | c :: cs, i =>
    if startsWithChars needle (c :: cs) then some i else findSubAux needle cs (i + 1)

/-- Python `s.find(sub)`: first index of `sub` in `s`, `-1` when absent. -/
def pyFind (s sub : String) : Int :=
  match findSubAux sub.toList s.toList 0 with
  | some n => (n : Int)
  | none => -1

/-- Python `s.find(sub, start)` with a (possibly negative) start index. -/
def pyFindFrom (s sub : String) (start : Int) : Int :=
  let n : Int := s.length
  let st : Int := if start < 0 then max 0 (n + start) else start
  if st > n then -1
  else
    match findSubAux sub.toList (s.toList.drop st.toNat) 0 with
    | some k => st + (k : Int)
    | none => -1

/-- Python slice `s[a:b]` with negative-index semantics. -/
def pySlice (s : String) (a b : Int) : String :=
  let n : Int := s.length
  let lo : Int := if a < 0 then max 0 (n + a) else min a n
  let hi : Int := if b < 0 then max 0 (n + b) else min b n
  if hi ≤ lo then ""
  else String.mk ((s.toList.drop lo.toNat).take (hi - lo).toNat)

/-- Python slice `s[a:]`. -/
def pySliceFrom (s : String) (a : Int) : String :=
  pySlice s a (s.length : Int)

/-- Python slice `s[:n]` for a nonnegative `n`. -/
def pyTake (s : String) (n : Nat) : String :=
  String.mk (s.toList.take n)

/-! ## Python `float()` model

Finite values are kept as exact reduced fractions (numerator and positive
denominator built with `Nat.gcd`, which the kernel evaluates);
`float("inf")`/`float("nan")` keep their own constructors so that Python's
`nan != nan` comparison can be modelled.  Rounding of decimal literals to
binary floats is not modelled: every claim below only compares values that
are exactly representable. -/

inductive PyFloat where
  | finite (num : Int) (den : Nat)
  | inf (neg : Bool)
  | nan
deriving DecidableEq

/-- Reduce a fraction by the gcd of its parts. -/
def normFrac (num : Int) (den : Nat) : Int × Nat :=
  let g := num.natAbs.gcd den
  if g = 0 then (num, den) else (num / (g : Int), den / g)

/-- Python `==` on floats (`nan` is not equal to itself); finite values are
compared by cross multiplication, so normalization is not required. -/
def pyFloatEq (a b : PyFloat) : Bool :=
  match a, b with
  | .finite n1 d1, .finite n2 d2 => n1 * (d2 : Int) = n2 * (d1 : Int)
  | .inf s1, .inf s2 => s1 = s2
  | _, _ => false

/-- Digit span: leading decimal digits of `cs` and the remainder. -/
def spanDigits (cs : List Char) : List Char × List Char :=
  (cs.takeWhile Char.isDigit, cs.dropWhile Char.isDigit)

/-- Numeric value of a list of decimal digits. -/
def digitsVal : List Char → Nat → Nat
  | [], acc => acc
  | c :: cs, acc => digitsVal cs (acc * 10 + (c.toNat - '0'.toNat))

/-- Parse the body of a Python float literal (sign already removed,
already lowercased): digits, optional fraction, optional exponent; the
result is the reduced numerator/denominator pair.  Underscore digit
separators are not modelled. -/
def pyFloatBody (cs : List Char) : Option (Int × Nat) :=
  let (ip, r1) := spanDigits cs
  let (fp, r2) :=
    match r1 with
    | '.' :: r => spanDigits r
    | _ => ([], r1)
  let hasPoint : Bool := match r1 with | '.' :: _ => true | _ => false
  if ip.isEmpty && fp.isEmpty then none
  else
    let mantNum : Nat := digitsVal ip 0 * 10 ^ fp.length + digitsVal fp 0
    let mantDen : Nat := 10 ^ fp.length
    let r2' := if hasPoint then r2 else r1
    match r2' with
    | [] => some (normFrac (mantNum : Int) mantDen)
    | 'e' :: r3 =>
      let (eneg, r4) : Bool × List Char :=
        match r3 with
        | '+' :: r => (false, r)
        | '-' :: r => (true, r)
        | _ => (false, r3)
      let (ed, r5) := spanDigits r4
      if ed.isEmpty || !r5.isEmpty then none
      else
        let e := digitsVal ed 0
        if eneg then some (normFrac (mantNum : Int) (mantDen * 10 ^ e))
        else some (normFrac ((mantNum * 10 ^ e : Nat) : Int) mantDen)
    | _ => none

/-- Python `float(s)` on a string: strip, optional sign, then either an
`inf`/`infinity`/`nan` keyword (case-insensitive) or a decimal literal. -/
def pyFloatParse (s : String) : Option PyFloat :=
  let t := (pyStrip s).toList.map Char.toLower
  let (neg, body) : Bool × List Char :=
    match t with
    | '+' :: r => (false, r)
    | '-' :: r => (true, r)
    | _ => (false, t)
  if body = "inf".toList || body = "infinity".toList then some (.inf neg)
  else if body = "nan".toList then some .nan
  else
    match pyFloatBody body with
    | some (n, d) => some (.finite (if neg then -n else n) d)
    | none => none

/-! ## JSON values and `json.loads`

Python's `json.loads` produces dicts, lists, strings, numbers, booleans and
`None`; its default parser also accepts the non-standard `NaN`, `Infinity`
and `-Infinity` tokens.  Dicts are modelled as insertion-ordered association
lists; a duplicate key overwrites the earlier value in place, as in Python. -/

inductive Json where
  | null
  | bool (b : Bool)
  | num (num : Int) (den : Nat)
  | nan
  | inf (neg : Bool)
  | str (s : String)
  | arr (elems : List Json)
  | obj (fields : List (String × Json))

/-- JSON whitespace. -/
def jsonWs (c : Char) : Bool :=
  c = ' ' || c = '\t' || c = '\n' || c = '\r'

/-- Skip JSON whitespace. -/
def skipJsonWs (cs : List Char) : List Char :=
  cs.dropWhile jsonWs

/-- Value of a hexadecimal digit, if any: the digit's position (case
folded) in the hex alphabet. -/
def hexVal (c : Char) : Option Nat :=
  findSubAux [c.toLower] "0123456789abcdef".toList 0

/-- Body of a JSON string after the opening quote: characters up to the
closing quote, processing escapes.  Unescaped control characters are
rejected, as in Python's strict default. -/
def parseJsonStr : Nat → List Char → List Char → Option (String × List Char)
  | 0, _, _ => none
  | _ + 1, [], _ => none
  | fuel + 1, c :: rest, acc =>
    if c = '"' then some (String.mk acc.reverse, rest)
    else if c = '\\' then
      match rest with
      | [] => none
      | e :: rest2 =>
        if e = '"' then parseJsonStr fuel rest2 ('"' :: acc)
        else if e = '\\' then parseJsonStr fuel rest2 ('\\' :: acc)
        else if e = '/' then parseJsonStr fuel rest2 ('/' :: acc)
        else if e = 'b' then parseJsonStr fuel rest2 (Char.ofNat 8 :: acc)
        else if e = 'f' then parseJsonStr fuel rest2 (Char.ofNat 12 :: acc)
        else if e = 'n' then parseJsonStr fuel rest2 ('\n' :: acc)
        else if e = 'r' then parseJsonStr fuel rest2 ('\r' :: acc)
        else if e = 't' then parseJsonStr fuel rest2 ('\t' :: acc)
        else if e = 'u' then
          match rest2 with
          | h1 :: h2 :: h3 :: h4 :: rest3 =>
            match hexVal h1, hexVal h2, hexVal h3, hexVal h4 with
            | some a, some b, some c2, some d =>
              let code := ((a * 16 + b) * 16 + c2) * 16 + d
              -- Lone surrogates and pairing are not modelled; such escapes
              -- do not occur in any input considered here.
              if code < 0xd800 then parseJsonStr fuel rest3 (Char.ofNat code :: acc)
              else none
            | _, _, _, _ => none
          | _ => none
        else none
    else if c.toNat < 0x20 then none
    else parseJsonStr fuel rest (c :: acc)

/-- Exponent part of a JSON number after `e`/`E`: optional sign and digits;
returns the reduced fraction for `mantNum/mantDen` scaled by the exponent,
plus the rest of the input. -/
def parseJsonExp (mantNum : Int) (mantDen : Nat) (r3 : List Char) :
    Option ((Int × Nat) × List Char) :=
  let (eneg, r4) : Bool × List Char :=
    match r3 with
    | '+' :: r => (false, r)
    | '-' :: r => (true, r)
    | _ => (false, r3)
  let (ed, r5) := spanDigits r4
  if ed.isEmpty then none
  else
    let e := digitsVal ed 0
    if eneg then some (normFrac mantNum (mantDen * 10 ^ e), r5)
    else some (normFrac (mantNum * (10 ^ e : Nat)) mantDen, r5)

/-- A JSON number starting at `cs` (leading `-` allowed; `01` rejected);
the value is a reduced numerator/denominator pair. -/
def parseJsonNum (cs : List Char) : Option ((Int × Nat) × List Char) :=
  let (neg, r0) : Bool × List Char :=
    match cs with
    | '-' :: r => (true, r)
    | _ => (false, cs)
  let (ip, r1) := spanDigits r0
  let okInt : Bool :=
    match ip with
    | [] => false
    | [_] => true
    | c :: _ => c ≠ '0'
  if !okInt then none
  else
    let (fp, r2, fracOk) : List Char × List Char × Bool :=
      match r1 with
      | '.' :: r =>
        let (d, r') := spanDigits r
        (d, r', !d.isEmpty)
      | _ => ([], r1, true)
    if !fracOk then none
    else
      let mantNum : Int := (if neg then -1 else 1) *
        ((digitsVal ip 0 * 10 ^ fp.length + digitsVal fp 0 : Nat) : Int)
      let mantDen : Nat := 10 ^ fp.length
      match r2 with
      | 'e' :: r3 => parseJsonExp mantNum mantDen r3
      | 'E' :: r3 => parseJsonExp mantNum mantDen r3
      | _ => some (normFrac mantNum mantDen, r2)

/-- Insert-or-replace on an ordered association list (Python dict update:
an existing key keeps its position, a new key is appended). -/
def upsertField (kvs : List (String × Json)) (k : String) (v : Json) :
    List (String × Json) :=
  match kvs with
  | [] => [(k, v)]
  | (k0, v0) :: rest =>
    if k0 = k then (k0, v) :: rest else (k0, v0) :: upsertField rest k v

mutual

/-- One JSON value starting at `cs` (leading whitespace already skipped). -/
def parseJsonValue : Nat → List Char → Option (Json × List Char)
  | 0, _ => none
  | fuel + 1, cs =>
    match cs with
    | [] => none
    | c :: rest =>
      if c = '"' then
        match parseJsonStr (fuel + 1) rest [] with
        | some (s, r) => some (.str s, r)
        | none => none
      else if c = '{' then
        match skipJsonWs rest with
        | '}' :: r2 => some (.obj [], r2)
        | r2 => parseJsonFields fuel r2 []
      else if c = '[' then
        match skipJsonWs rest with
        | ']' :: r2 => some (.arr [], r2)
        | r2 => parseJsonElems fuel r2 []
      else if c = 't' then
        if startsWithChars "rue".toList rest then some (.bool true, rest.drop 3) else none
      else if c = 'f' then
        if startsWithChars "alse".toList rest then some (.bool false, rest.drop 4) else none
      else if c = 'n' then
        if startsWithChars "ull".toList rest then some (.null, rest.drop 3) else none
      else if c = 'N' then
        if startsWithChars "aN".toList rest then some (.nan, rest.drop 2) else none
      else if c = 'I' then
        if startsWithChars "nfinity".toList rest then some (.inf false, rest.drop 7) else none
      else if c = '-' && startsWithChars "Infinity".toList rest then
        some (.inf true, rest.drop 8)
      else
        match parseJsonNum cs with
        | some ((n, d), r) => some (.num n d, r)
        | none => none

/-- Remaining fields of a JSON object (after `{` and at a key). -/
def parseJsonFields : Nat → List Char → List (String × Json) →
    Option (Json × List Char)
  | 0, _, _ => none
  | fuel + 1, cs, acc =>
    match cs with
    | '"' :: rest =>
      match parseJsonStr (fuel + 1) rest [] with
      | some (k, r1) =>
        match skipJsonWs r1 with
        | ':' :: r2 =>
          match parseJsonValue fuel (skipJsonWs r2) with
          | some (v, r3) =>
            let acc2 := upsertField acc k v
            match skipJsonWs r3 with
            | ',' :: r4 => parseJsonFields fuel (skipJsonWs r4) acc2
            | '}' :: r4 => some (.obj acc2, r4)
            | _ => none
          | none => none
        | _ => none
      | none => none
    | _ => none

/-- Remaining elements of a JSON array (after `[` and at a value). -/
def parseJsonElems : Nat → List Char → List Json → Option (Json × List Char)
  | 0, _, _ => none
  | fuel + 1, cs, acc =>
    match parseJsonValue fuel cs with
    | some (v, r1) =>
      match skipJsonWs r1 with
      | ',' :: r2 => parseJsonElems fuel (skipJsonWs r2) (v :: acc)
      | ']' :: r2 => some (.arr (v :: acc).reverse, r2)
      | _ => none
    | none => none

end

/-- Python `json.loads`: parse one document, allowing only trailing
whitespace; `none` models `json.JSONDecodeError`. -/
def jsonLoads (s : String) : Option Json :=
  match parseJsonValue (s.length + 2) (skipJsonWs s.toList) with
  | some (j, rest) => if (skipJsonWs rest).isEmpty then some j else none
  | none => none

/-! ## Python runtime pieces used by the judge's LLM-response handling -/

/-- Python exception classes that the modelled judge code can raise. -/
inductive PyErr where
  | typeError
  | attributeError
  | runtimeError
  | fileNotFoundError
deriving DecidableEq

/-- Python truthiness of a JSON value (`None`, `False`, zero, empty string,
empty list and empty dict are falsy). -/
def jsonTruthy : Json → Bool
  | .null => false
  | .bool b => b
  | .num n _ => n ≠ 0
  | .nan => true
  | .inf _ => true
  | .str s => s ≠ ""
  | .arr xs => !xs.isEmpty
  | .obj kvs => !kvs.isEmpty

/-- Python `j == s` for a string literal `s`: only a string compares equal. -/
def jsonEqStr (j : Json) (s : String) : Bool :=
  match j with
  | .str t => t = s
  | _ => false

/-- Python `k in j` for a string `k`: key membership for a dict, substring
for a string, element equality for a list; a `TypeError` otherwise. -/
def pyInJson (k : String) (j : Json) : Except PyErr Bool :=
  match j with
  | .obj kvs => .ok (kvs.any (fun kv => kv.1 = k))
  | .str s => .ok (pyContainsSub s k)
  | .arr xs => .ok (xs.any (fun e => jsonEqStr e k))
  | _ => .error .typeError

/-- Python `j.get(k, dflt)`: only dicts have `.get`; anything else raises
`AttributeError`. -/
def pyDictGet (j : Json) (k : String) (dflt : Json) : Except PyErr Json :=
  match j with
  | .obj kvs =>
    match kvs.find? (fun kv => kv.1 = k) with
    | some kv => .ok kv.2
    | none => .ok dflt
  | _ => .error .attributeError

/-- Python `j[k] = v`: item assignment, valid only on a dict (`TypeError`
otherwise); an existing key is replaced in place, a new key appended. -/
def pySetItem (j : Json) (k : String) (v : Json) : Except PyErr Json :=
  match j with
  | .obj kvs => .ok (.obj (upsertField kvs k v))
  | _ => .error .typeError

/-- Field lookup on a JSON dict (plain observation used in statements). -/
def jsonField (j : Json) (k : String) : Option Json :=
  match j with
  | .obj kvs => (kvs.find? (fun kv => kv.1 = k)).map (fun kv => kv.2)
  | _ => none

/-! ## judge.py — data loading and execution-status classification -/

/-- Embedding of `judge._parse_objective`: `float(raw)` on a string, `None`
on `None` or a parse failure. -/
def parseObjective : Option String → Option PyFloat
  | none => none
  | some raw => pyFloatParse raw

/-- Embedding of `judge._detect_direction`. -/
def detectDirection : Option String → Option String
  | none => none
  | some code =>
    if code = "" then none
    else
      let upper := pyUpper code
      if pyContainsSub upper "MAXIMIZE" || pyContainsSub upper "GRB.MAXIMIZE" then
        some "maximize"
      else if pyContainsSub upper "MINIMIZE" || pyContainsSub upper "GRB.MINIMIZE" then
        some "minimize"
      else none

/-- Embedding of `judge._classify_execution`. -/
def classifyExecution : Option String → Option PyFloat → String
  | none, _ => "not_run"
  | some out, objectiveValue =>
    if pyContainsSub out "Traceback" || pyContainsSub out "Execution failed" then
      "error"
    else
      let upper := pyUpper out
      if pyContainsSub upper "INFEASIBLE" && !pyContainsSub upper "OPTIMAL" then
        "infeasible"
      else if pyContainsSub upper "UNBOUNDED" && !pyContainsSub upper "OPTIMAL" then
        "unbounded"
      else
        match objectiveValue with
        | some _ => if pyContainsSub upper "OPTIMAL" then "optimal" else "feasible"
        | none => "no_result"

/-- Embedding of `judge._read_file`: the input is the file's raw contents
(`none` when the file is missing); the result is the stripped text, with an
empty result collapsed to `none`. -/
def readFileModel : Option String → Option String
  | none => none
  | some s =>
    let t := pyStrip s
    if t = "" then none else some t

/-- The per-solver record built by `judge._load_solver` (the fields the
decision logic reads; the prompt-only fields `code_output_clean`, `state`
and `response` are omitted, as is the `solver` tag). -/
structure SolverOutput where
  code : Option String
  code_output_raw : Option String
  objective_raw : Option String
  objective_value : Option PyFloat
  execution_status : String
  direction : Option String
  available : Bool
deriving DecidableEq

/-- Embedding of `judge._load_solver`: inputs are the directory's existence
and the raw contents of the code file, `code_output.txt` and
`output_solution.txt`. -/
def loadSolver (dirExists : Bool)
    (codeFile outputFile solutionFile : Option String) : Option SolverOutput :=
  if !dirExists then none
  else
    let code := readFileModel codeFile
    let out := readFileModel outputFile
    let objRaw := readFileModel solutionFile
    let objVal := parseObjective objRaw
    some {
      code := code
      code_output_raw := out
      objective_raw := objRaw
      objective_value := objVal
      execution_status := classifyExecution out objVal
      direction := detectDirection code
      available := code.isSome || out.isSome }

/-! ## The spec's ordered classification rule list (§4.5 of the spec) -/

/-- Crash marker of classification rule 2: a traceback signature or the
explicit execution-failed marker. -/
def crashMarker (l : String) : Bool :=
  pyContainsSub l "Traceback" || pyContainsSub l "Execution failed"

/-- Optimality marker (case-insensitive substring). -/
def optimalityMarker (l : String) : Bool :=
  pyContainsSub (pyUpper l) "OPTIMAL"

/-- Infeasibility marker (case-insensitive substring). -/
def infeasibilityMarker (l : String) : Bool :=
  pyContainsSub (pyUpper l) "INFEASIBLE"

/-- Unboundedness marker (case-insensitive substring). -/
def unboundednessMarker (l : String) : Bool :=
  pyContainsSub (pyUpper l) "UNBOUNDED"

/-- First rule whose guard holds, else the default. -/
def firstRule : List (Bool × String) → String → String
  | [], dflt => dflt
  | (c, r) :: rest, dflt => if c then r else firstRule rest dflt

/-- The spec's rules 2–6 for a present log, in order (rule 1 handles a
missing log and rule 7 is the default). -/
def orderedRules (l : String) (objectiveValue : Option PyFloat) :
    List (Bool × String) :=
  [ (crashMarker l, "error"),
    (infeasibilityMarker l && !optimalityMarker l, "infeasible"),
    (unboundednessMarker l && !optimalityMarker l, "unbounded"),
    (objectiveValue.isSome && optimalityMarker l, "optimal"),
    (objectiveValue.isSome && !optimalityMarker l, "feasible") ]

/-- The classification described by the spec's ordered rule list, written
independently of `classifyExecution` for comparison with it. -/
def specClassify (log : Option String) (objectiveValue : Option PyFloat) : String :=
  match log with
  | none => "not_run"
  | some l => firstRule (orderedRules l objectiveValue) "no_result"

/-- The success set `{optimal, feasible}` used throughout the judge. -/
def successStatus (s : String) : Bool :=
  s = "optimal" || s = "feasible"

/-! ## Claims C3 and C2 -/

/-- C3: for every pair of a raw execution log and a parsed objective value,
`_classify_execution` returns exactly the status given by the spec's ordered
rule list: (1) missing log → `not_run`; (2) crash marker → `error`;
(3) infeasibility marker without optimality marker → `infeasible`;
(4) unboundedness marker without optimality marker → `unbounded`;
(5) parsed objective with optimality marker → `optimal`; (6) parsed
objective without optimality marker → `feasible`; (7) otherwise
`no_result`; earlier rules take precedence on mixed logs. -/
theorem classify_execution_matches_rule_list (log : Option String)
    (objectiveValue : Option PyFloat) :
    classifyExecution log objectiveValue = specClassify log objectiveValue := by
  cases log with
  | none => rfl
  | some l =>
    simp only [classifyExecution, specClassify, orderedRules, firstRule,
      crashMarker, infeasibilityMarker, unboundednessMarker, optimalityMarker]
    cases h1 : pyContainsSub l "Traceback" <;>
      cases h2 : pyContainsSub l "Execution failed" <;>
        cases h3 : pyContainsSub (pyUpper l) "INFEASIBLE" <;>
          cases h4 : pyContainsSub (pyUpper l) "UNBOUNDED" <;>
            cases h5 : pyContainsSub (pyUpper l) "OPTIMAL" <;>
              cases objectiveValue <;>
                simp [h1, h2, h3, h4, h5]

/-- A status in the success set is only ever produced by the classifier when
an objective value was parsed. -/
lemma classify_success_objective (out : Option String) (v : Option PyFloat)
    (h : successStatus (classifyExecution out v) = true) : v.isSome = true := by
  cases v with
  | some x => rfl
  | none =>
    exfalso
    cases out with
    | none => simp [classifyExecution, successStatus] at h
    | some l =>
      simp only [classifyExecution] at h
      split_ifs at h <;> simp [successStatus] at h

/-- A crashed execution log whose companion artifact still parses as a
number: the loader pairs `execution_status = "error"` with a present
`objective_value`. -/
def tracebackLog : String := "Traceback (most recent call last):"

/-- The record the loader builds from `tracebackLog` and an artifact "7". -/
def tracebackRecord : SolverOutput :=
  { code := some "print(1)", code_output_raw := some tracebackLog,
    objective_raw := some "7", objective_value := some (.finite 7 1),
    execution_status := "error", direction := none, available := true }

/-- C2 counterexample: a loader-built Solver Output with a parsed
`objective_value` (7.0) whose derived `execution_status` is `error`, outside
the success set — refuting "`objective_value` present only if
`execution_status ∈ {optimal, feasible}`". -/
theorem objective_without_success_counterexample :
    loadSolver true (some "print(1)") (some tracebackLog) (some "7") =
        some tracebackRecord
      ∧ tracebackRecord.objective_value = some (.finite 7 1)
      ∧ tracebackRecord.execution_status = "error"
      ∧ successStatus tracebackRecord.execution_status = false :=
  ⟨rfl, rfl, rfl, rfl⟩

/-- C2 (amended): the implication holds in the converse direction — for
every Solver Output built by the loader, if the derived `execution_status`
is in `{optimal, feasible}` then `objective_value` is present. -/
theorem success_status_implies_objective_present
    (d : Bool) (cf of sf : Option String) (o : SolverOutput)
    (h : loadSolver d cf of sf = some o)
    (hs : successStatus o.execution_status = true) :
    o.objective_value.isSome = true := by
  cases d with
  | false => simp [loadSolver] at h
  | true =>
    simp only [loadSolver, Bool.not_true, Bool.false_eq_true, if_false] at h
    rcases Option.some.inj h.symm with rfl
    exact classify_success_objective _ _ hs

/-- The record the loader builds from an optimal log and artifact "7". -/
def optimalRecord : SolverOutput :=
  { code := some "print(1)", code_output_raw := some "Optimal solution found",
    objective_raw := some "7", objective_value := some (.finite 7 1),
    execution_status := "optimal", direction := none, available := true }

/-- Witness for the amended C2 at a concrete loader input. -/
theorem success_status_implies_objective_present_check :
    optimalRecord.objective_value.isSome = true :=
  success_status_implies_objective_present true (some "print(1)")
    (some "Optimal solution found") (some "7") optimalRecord (by decide) rfl

/-! ## judge.py — LLM comparison response parsing -/

/-- Python `text.split("\n", 1)[1]`: everything after the first newline
(used only when a newline is present). -/
def afterFirstNewline (s : String) : String :=
  String.mk ((s.toList.dropWhile (fun c => c != '\n')).drop 1)

/-- Greatest index at which `needle` occurs in the list, starting the count
at `i` (Python `str.rfind`). -/
def lastSubIdxAux (needle : List Char) : List Char → Nat → Option Nat
  | [], i => if needle.isEmpty then some i else none
  | c :: cs, i =>
    match lastSubIdxAux needle cs (i + 1) with
    | some j => some j
    | none => if startsWithChars needle (c :: cs) then some i else none

/-- Python `s.rsplit(sub, 1)[0]`: the prefix before the last occurrence of
`sub`, or all of `s` when `sub` does not occur. -/
def beforeLastSub (s sub : String) : String :=
  match lastSubIdxAux sub.toList s.toList 0 with
  | some i => String.mk (s.toList.take i)
  | none => s

/-- Embedding of `re.search(r"\x7b.*\x7d", text, re.DOTALL).group()`: the
greedy match runs from the first opening brace to the last closing brace of
the whole text (when the latter comes after the former). -/
def greedyBraceRegion (s : String) : Option String :=
  match findSubAux ['{'] s.toList 0, lastSubIdxAux ['}'] s.toList 0 with
  | some i, some j =>
    if i < j then some (String.mk ((s.toList.drop i).take (j - i + 1))) else none
  | _, _ => none

/-- Index of the closing brace matching an already-open brace, scanning from
position `i` at nesting `depth`. -/
def balancedScan : List Char → Nat → Nat → Option Nat
  | [], _, _ => none
  | c :: cs, i, depth =>
    if c = '{' then balancedScan cs (i + 1) (depth + 1)
    else if c = '}' then
      (if depth = 1 then some i else balancedScan cs (i + 1) (depth - 1))
    else balancedScan cs (i + 1) depth

/-- The claim's description of the fallback extraction — "the first
balanced `{...}` region": from the first opening brace to its matching
closing brace.  Stated from the claim's words, for comparison with
`greedyBraceRegion`. -/
def firstBalancedBraceRegion (s : String) : Option String :=
  match findSubAux ['{'] s.toList 0 with
  | none => none
  | some i =>
    match balancedScan (s.toList.drop (i + 1)) (i + 1) 1 with
    | some j => some (String.mk ((s.toList.drop i).take (j - i + 1)))
    | none => none

/-- Embedding of `judge._parse_llm_json`. -/
def parseLlmJson (responseText : String) : Option Json :=
  let t0 := pyStrip responseText
  let t1 :=
    if pyStartsWith t0 "```" then
      (if pyContainsSub t0 "\n" then afterFirstNewline t0 else pySliceFrom t0 3)
    else t0
  let t2 := if pyEndsWith t1 "```" then beforeLastSub t1 "```" else t1
  let text := pyStrip t2
  match jsonLoads text with
  | some j => some j
  | none =>
    match greedyBraceRegion text with
    | some region => jsonLoads region
    | none => none

/-- The fallback comparison dict built by `judge.evaluate_solutions` when
the response cannot be parsed (or has no `winner` member). -/
def fallbackComparison (response : String) : Json :=
  .obj [("winner", .str "optimus"),
        ("direction", .str "unknown"),
        ("reasoning", .str ("Judge response could not be parsed. Raw: " ++ pyTake response 500)),
        ("optimus_assessment", .str "N/A"),
        ("optimind_assessment", .str "N/A")]

/-- Embedding of `judge.evaluate_solutions`: the prompt build and Gateway
call are external, so the function takes the raw LLM response; `if parsed
and "winner" in parsed: return parsed` evaluates Python truthiness and `in`
(which raises `TypeError` on a number or boolean). -/
def evaluateSolutions (llmResponse : String) : Except PyErr Json :=
  match parseLlmJson llmResponse with
  | none => .ok (fallbackComparison llmResponse)
  | some parsed =>
    if jsonTruthy parsed then
      match pyInJson "winner" parsed with
      | .error e => .error e
      | .ok true => .ok parsed
      | .ok false => .ok (fallbackComparison llmResponse)
    else .ok (fallbackComparison llmResponse)

/-! ## Claim C6 -/

/-- JSON values on which Python `"winner" in x` raises `TypeError`
(numbers, booleans, the non-finite number tokens). -/
def jsonNumericLike : Json → Bool
  | .num _ _ => true
  | .nan => true
  | .inf _ => true
  | .bool _ => true
  | _ => false

/-- Membership testing only fails on numeric-like values (or `None`), and
the failure is a `TypeError`. -/
lemma pyInJson_error (k : String) (j : Json) (e : PyErr)
    (h : pyInJson k j = .error e) :
    e = .typeError ∧ (jsonNumericLike j = true ∨ j = .null) := by
  cases j <;> simp [pyInJson, jsonNumericLike] at h ⊢
  all_goals exact h.symm

/-- A response ending in a stray close brace: the greedy first-to-last
brace region is unbalanced and fails to parse. -/
def greedyCexResponse : String := "\x7b\"winner\": \"optimind\"\x7d\x7d"

/-- C6 counterexample: on `{"winner": "optimind"}}` the code returns the
fallback verdict naming `optimus`, while the claim's "first balanced
`{...}` region" parses to a dict naming `optimind`; and on the (parseable)
response `3` the evaluation step raises a `TypeError` instead of returning
a fallback verdict. -/
theorem llm_parse_greedy_counterexample :
    evaluateSolutions greedyCexResponse = .ok (fallbackComparison greedyCexResponse)
      ∧ jsonField (fallbackComparison greedyCexResponse) "winner" = some (.str "optimus")
      ∧ firstBalancedBraceRegion greedyCexResponse = some "\x7b\"winner\": \"optimind\"\x7d"
      ∧ jsonLoads "\x7b\"winner\": \"optimind\"\x7d" = some (.obj [("winner", .str "optimind")])
      ∧ Json.str "optimus" ≠ Json.str "optimind"
      ∧ evaluateSolutions "3" = .error .typeError := by
  refine ⟨rfl, rfl, rfl, rfl, ?_, rfl⟩
  simp

/-- C6 (amended): the evaluation step never raises unless the response
parses to a bare number or boolean (then: `TypeError`); it tolerates
code-fence wrapping and falls back to the span from the first `{` to the
last `}`; total parse failure, a falsy parse, or a parse without a `winner`
member all yield the fallback verdict, which defaults the winner to
`optimus` and embeds the first 500 characters of the raw response in its
reasoning. -/
theorem evaluate_fallback_characterization (resp : String) :
    (parseLlmJson resp = none → evaluateSolutions resp = .ok (fallbackComparison resp))
      ∧ (∀ j, parseLlmJson resp = some j → jsonTruthy j = false →
          evaluateSolutions resp = .ok (fallbackComparison resp))
      ∧ (∀ j, parseLlmJson resp = some j → pyInJson "winner" j = .ok false →
          evaluateSolutions resp = .ok (fallbackComparison resp))
      ∧ (∀ j, parseLlmJson resp = some j → pyInJson "winner" j = .ok true →
          evaluateSolutions resp = .ok j)
      ∧ (∀ e, evaluateSolutions resp = .error e →
          e = .typeError ∧
            ∃ j, parseLlmJson resp = some j ∧ jsonTruthy j = true ∧ jsonNumericLike j = true)
      ∧ jsonField (fallbackComparison resp) "winner" = some (.str "optimus")
      ∧ jsonField (fallbackComparison resp) "reasoning" =
          some (.str ("Judge response could not be parsed. Raw: " ++ pyTake resp 500))
      ∧ evaluateSolutions "```json\n\x7b\"winner\": \"optimind\"\x7d\n```" =
          .ok (.obj [("winner", .str "optimind")])
      ∧ evaluateSolutions "noise before \x7b\"winner\": \"optimind\"\x7d" =
          .ok (.obj [("winner", .str "optimind")]) := by
  refine ⟨?_, ?_, ?_, ?_, ?_, rfl, rfl, rfl, rfl⟩
  · intro h
    simp [evaluateSolutions, h]
  · intro j hj htr
    simp [evaluateSolutions, hj, htr]
  · intro j hj hin
    cases htr : jsonTruthy j <;> simp [evaluateSolutions, hj, htr, hin]
  · intro j hj hin
    cases htr : jsonTruthy j with
    | false =>
      exfalso
      cases j <;>
        simp_all [jsonTruthy, pyInJson, jsonEqStr, pyContainsSub, hasSubChars]
    | true => simp [evaluateSolutions, hj, htr, hin]
  · intro e he
    cases hp : parseLlmJson resp with
    | none => simp [evaluateSolutions, hp] at he
    | some j =>
      cases htr : jsonTruthy j with
      | false => simp [evaluateSolutions, hp, htr] at he
      | true =>
        cases hin : pyInJson "winner" j with
        | error e2 =>
          simp [evaluateSolutions, hp, htr, hin] at he
          rcases pyInJson_error _ _ _ hin with ⟨he2, hnum⟩
          subst he
          refine ⟨he2, j, rfl, htr, ?_⟩
          rcases hnum with h | h
          · exact h
          · subst h
            simp [jsonTruthy] at htr
        | ok b => cases b <;> simp [evaluateSolutions, hp, htr, hin] at he

/-- Witness for the amended C6: an unparseable response yields the
fallback verdict. -/
theorem evaluate_fallback_characterization_check :
    evaluateSolutions "not json at all" = .ok (fallbackComparison "not json at all") :=
  (evaluate_fallback_characterization "not json at all").1 rfl

/-! ## judge.py — decision logic -/

/-- Python truthiness of `optimus and optimus.get("available")`. -/
def isOk : Option SolverOutput → Bool
  | none => false
  | some o => o.available

/-- The status the decision layers use:
`optimus["execution_status"] if opt_ok else "not_run"`. -/
def statusOf : Option SolverOutput → String
  | none => "not_run"
  | some o => if o.available then o.execution_status else "not_run"

/-- Rendering of a float inside an f-string.  Only the integer/fraction
shape matters here: the reason strings carrying a rendered float are only
logged and stored, never inspected by the decision logic. -/
def pyFloatRepr : PyFloat → String
  | .finite n 1 => toString n ++ ".0"
  | .finite n d => toString n ++ "/" ++ toString d
  | .inf true => "-inf"
  | .inf false => "inf"
  | .nan => "nan"

/-- Embedding of `judge._programmatic_winner`. -/
def programmaticWinner (optimus optimind : Option SolverOutput) :
    Option String × String :=
  let opt_ok := isOk optimus
  let mind_ok := isOk optimind
  if !opt_ok && !mind_ok then (none, "neither solver produced output")
  else
    let opt_status := statusOf optimus
    let mind_status := statusOf optimind
    if !mind_ok then (some "optimus", "only OptiMUS produced output")
    else if !opt_ok then (some "optimind", "only OptiMind produced output")
    else
      let opt_success := successStatus opt_status
      let mind_success := successStatus mind_status
      if opt_success && !mind_success then
        (some "optimus",
          "OptiMUS succeeded (" ++ opt_status ++ "), OptiMind failed (" ++ mind_status ++ ")")
      else if mind_success && !opt_success then
        (some "optimind",
          "OptiMind succeeded (" ++ mind_status ++ "), OptiMUS failed (" ++ opt_status ++ ")")
      else if !opt_success && !mind_success then
        (none, "both solvers failed (OptiMUS: " ++ opt_status ++ ", OptiMind: " ++ mind_status ++ ")")
      else
        let opt_val := optimus.bind (fun o => o.objective_value)
        let mind_val := optimind.bind (fun o => o.objective_value)
        match opt_val, mind_val with
        | some x, some y =>
          if pyFloatEq x y then
            (none, "both achieved same objective (" ++ pyFloatRepr x ++
              "); LLM to evaluate formulation quality")
          else (none, "both succeeded with output; LLM to evaluate correctness and compare")
        | _, _ => (none, "both succeeded with output; LLM to evaluate correctness and compare")

/-- Embedding of `judge._sanity_check`: returns
`(final_winner, was_overridden, override_reason)`. -/
def sanityCheck (llmWinner : Json) (optimus optimind : Option SolverOutput) :
    Json × Bool × Option String :=
  let opt_ok := isOk optimus
  let mind_ok := isOk optimind
  let opt_status := statusOf optimus
  let mind_status := statusOf optimind
  if jsonEqStr llmWinner "optimus" && !successStatus opt_status &&
      successStatus mind_status then
    (.str "optimind", true,
      some ("LLM picked OptiMUS (" ++ opt_status ++ ") but OptiMind succeeded (" ++
        mind_status ++ ")"))
  else if jsonEqStr llmWinner "optimind" && !successStatus mind_status &&
      successStatus opt_status then
    (.str "optimus", true,
      some ("LLM picked OptiMind (" ++ mind_status ++ ") but OptiMUS succeeded (" ++
        opt_status ++ ")"))
  else if jsonEqStr llmWinner "optimus" && !opt_ok && mind_ok then
    (.str "optimind", true, some "LLM picked OptiMUS but it has no output")
  else if jsonEqStr llmWinner "optimind" && !mind_ok && opt_ok then
    (.str "optimus", true, some "LLM picked OptiMind but it has no output")
  else (llmWinner, false, none)

/-! ## judge.py — compare_solutions -/

/-- A solver's truthy `direction` field, as read by the direction loop. -/
def dirTruthy : Option SolverOutput → Option String
  | none => none
  | some o =>
    match o.direction with
    | some s => if s = "" then none else some s
    | none => none

/-- The direction loop: first solver with a truthy direction. -/
def firstSolverDir (a b : Option SolverOutput) : Option String :=
  match dirTruthy a with
  | some s => some s
  | none => dirTruthy b

/-- The per-solver status label written into the verdict
(`_solver_status` inside `compare_solutions`). -/
def solverStatusLabel : Option SolverOutput → String
  | none => "not_available"
  | some o =>
    if !o.available then "not_available"
    else if successStatus o.execution_status then "success"
    else o.execution_status

/-- The verdict document written to `final_output/verdict.json` (the
`solvers` nesting is flattened into four fields). -/
structure Verdict where
  winner : Json
  objective_value : Option PyFloat
  direction : Json
  optimus_status : String
  optimus_objective : Option PyFloat
  optimind_status : String
  optimind_objective : Option PyFloat
  reasoning : Json
  optimus_assessment : Json
  optimind_assessment : Json

/-- Result of `compare_solutions`: the returned verdict plus observation
fields mirroring the code's local variables — which decision branch ran,
the winner before the sanity check, whether the override fired, and the
final in-memory comparison dict. -/
structure CompareResult where
  verdict : Verdict
  usedLayer2 : Bool
  preWinner : Json
  overrideFired : Bool
  finalComparison : Json

/-- The verdict-building tail of `compare_solutions` (direction detection
and the verdict dict). -/
def buildVerdict (comparison : Json) (winnerName : Json)
    (optimus optimind : Option SolverOutput) : Except PyErr Verdict :=
  match pyDictGet comparison "direction" (.str "unknown") with
  | .error e => .error e
  | .ok dir0 =>
    let direction :=
      if jsonEqStr dir0 "unknown" then
        match firstSolverDir optimus optimind with
        | some s => Json.str s
        | none => dir0
      else dir0
    let winnerData := if jsonEqStr winnerName "optimus" then optimus else optimind
    match pyDictGet comparison "reasoning" (.str "") with
    | .error e => .error e
    | .ok reasoning =>
      match pyDictGet comparison "optimus_assessment" (.str "") with
      | .error e => .error e
      | .ok oa =>
        match pyDictGet comparison "optimind_assessment" (.str "") with
        | .error e => .error e
        | .ok ma =>
          .ok { winner := winnerName
                objective_value := winnerData.bind (fun o => o.objective_value)
                direction := direction
                optimus_status := solverStatusLabel optimus
                optimus_objective := optimus.bind (fun o => o.objective_value)
                optimind_status := solverStatusLabel optimind
                optimind_objective := optimind.bind (fun o => o.objective_value)
                reasoning := reasoning
                optimus_assessment := oa
                optimind_assessment := ma }

/-- The fast-path branch of `compare_solutions`: the LLM is still called
for quality assessment, then its `winner` is overwritten with the
programmatic decision and the programmatic reason recorded. -/
def compareLayer1 (pw reason : String) (optimus optimind : Option SolverOutput)
    (llmResponse : String) : Except PyErr CompareResult :=
  match evaluateSolutions llmResponse with
  | .error e => .error e
  | .ok comparison0 =>
    match pySetItem comparison0 "winner" (.str pw) with
    | .error e => .error e
    | .ok comparison1 =>
      match pySetItem comparison1 "programmatic_reason" (.str reason) with
      | .error e => .error e
      | .ok comparison =>
        match buildVerdict comparison (.str pw) optimus optimind with
        | .error e => .error e
        | .ok v =>
          .ok { verdict := v, usedLayer2 := false, preWinner := .str pw
                overrideFired := false, finalComparison := comparison }

/-- The LLM-comparison branch of `compare_solutions`, including the Layer-3
sanity check and the conditional override bookkeeping. -/
def compareLayer2 (optimus optimind : Option SolverOutput)
    (llmResponse : String) : Except PyErr CompareResult :=
  match evaluateSolutions llmResponse with
  | .error e => .error e
  | .ok comparison0 =>
    match pyDictGet comparison0 "winner" (.str "optimus") with
    | .error e => .error e
    | .ok winner0 =>
      let sc := sanityCheck winner0 optimus optimind
      let updated : Except PyErr Json :=
        if sc.2.1 then
          match pySetItem comparison0 "winner" sc.1 with
          | .error e => .error e
          | .ok c1 =>
            pySetItem c1 "override_reason"
              (match sc.2.2 with
               | some r => Json.str r
               | none => Json.null)
        else .ok comparison0
      match updated with
      | .error e => .error e
      | .ok comparison =>
        match buildVerdict comparison sc.1 optimus optimind with
        | .error e => .error e
        | .ok v =>
          .ok { verdict := v, usedLayer2 := true, preWinner := winner0
                overrideFired := sc.2.1, finalComparison := comparison }

/-- Python truthiness of the loaded problem description. -/
def descTruthy : Option String → Bool
  | none => false
  | some d => d ≠ ""

/-- Embedding of `judge.compare_solutions`.  Inputs are the loaded problem
description, the two loaded solver outputs (`none` when the output
directory is missing) and the LLM comparison response. -/
def compareSolutions (description : Option String)
    (optimus optimind : Option SolverOutput) (llmResponse : String) :
    Except PyErr CompareResult :=
  if !descTruthy description then .error .fileNotFoundError
  else if !isOk optimus && !isOk optimind then .error .runtimeError
  else
    let pr := programmaticWinner optimus optimind
    match pr.1 with
    | some pw =>
      if pw = "" then compareLayer2 optimus optimind llmResponse
      else compareLayer1 pw pr.2 optimus optimind llmResponse
    | none => compareLayer2 optimus optimind llmResponse

/-! ## Lemmas about the decision layers -/

lemma statusOf_notOk (x : Option SolverOutput) (h : isOk x = false) :
    statusOf x = "not_run" := by
  cases x with
  | none => rfl
  | some o =>
    simp [isOk] at h
    simp [statusOf, h]

lemma statusOf_success_ok (x : Option SolverOutput)
    (h : successStatus (statusOf x) = true) : isOk x = true := by
  cases hx : isOk x with
  | true => rfl
  | false =>
    rw [statusOf_notOk x hx] at h
    exact absurd h (by decide)

lemma prog_none_cases (a b : Option SolverOutput)
    (h : (programmaticWinner a b).1 = none) :
    (isOk a = false ∧ isOk b = false) ∨
      (isOk a = true ∧ isOk b = true ∧
        successStatus (statusOf a) = successStatus (statusOf b)) := by
  cases hoa : isOk a with
  | false =>
    cases hob : isOk b with
    | false => exact Or.inl ⟨rfl, rfl⟩
    | true =>
      exfalso
      simp [programmaticWinner, hoa, hob] at h
  | true =>
    cases hob : isOk b with
    | false =>
      exfalso
      simp [programmaticWinner, hoa, hob] at h
    | true =>
      cases hsa : successStatus (statusOf a) with
      | false =>
        cases hsb : successStatus (statusOf b) with
        | false => exact Or.inr ⟨rfl, rfl, rfl⟩
        | true =>
          exfalso
          simp [programmaticWinner, hoa, hob, hsa, hsb] at h
      | true =>
        cases hsb : successStatus (statusOf b) with
        | false =>
          exfalso
          simp [programmaticWinner, hoa, hob, hsa, hsb] at h
        | true => exact Or.inr ⟨rfl, rfl, rfl⟩

lemma prog_some_cases (a b : Option SolverOutput) (w : String)
    (h : (programmaticWinner a b).1 = some w) :
    (w = "optimus" ∧ (isOk b = false ∨
        (successStatus (statusOf a) = true ∧ successStatus (statusOf b) = false))) ∨
      (w = "optimind" ∧ (isOk a = false ∨
        (successStatus (statusOf b) = true ∧ successStatus (statusOf a) = false))) := by
  cases hoa : isOk a with
  | false =>
    cases hob : isOk b with
    | false =>
      exfalso
      simp [programmaticWinner, hoa, hob] at h
    | true =>
      right
      simp [programmaticWinner, hoa, hob] at h
      exact ⟨h.symm, Or.inl rfl⟩
  | true =>
    cases hob : isOk b with
    | false =>
      left
      simp [programmaticWinner, hoa, hob] at h
      exact ⟨h.symm, Or.inl rfl⟩
    | true =>
      cases hsa : successStatus (statusOf a) with
      | false =>
        cases hsb : successStatus (statusOf b) with
        | false =>
          exfalso
          simp [programmaticWinner, hoa, hob, hsa, hsb] at h
        | true =>
          right
          simp [programmaticWinner, hoa, hob, hsa, hsb] at h
          exact ⟨h.symm, Or.inr ⟨rfl, rfl⟩⟩
      | true =>
        cases hsb : successStatus (statusOf b) with
        | false =>
          left
          simp [programmaticWinner, hoa, hob, hsa, hsb] at h
          exact ⟨h.symm, Or.inr ⟨rfl, rfl⟩⟩
        | true =>
          exfalso
          cases hva : a.bind (fun o => o.objective_value) with
          | none => simp [programmaticWinner, hoa, hob, hsa, hsb, hva] at h
          | some x =>
            cases hvb : b.bind (fun o => o.objective_value) with
            | none => simp [programmaticWinner, hoa, hob, hsa, hsb, hva, hvb] at h
            | some y =>
              cases hpf : pyFloatEq x y <;>
                simp [programmaticWinner, hoa, hob, hsa, hsb, hva, hvb, hpf] at h

lemma prog_forced_optimus (a b : Option SolverOutput)
    (hsa : successStatus (statusOf a) = true)
    (hsb : successStatus (statusOf b) = false) :
    (programmaticWinner a b).1 = some "optimus" := by
  have hoa : isOk a = true := statusOf_success_ok a hsa
  cases hob : isOk b with
  | false => simp [programmaticWinner, hoa, hob]
  | true => simp [programmaticWinner, hoa, hob, hsa, hsb]

lemma prog_forced_optimind (a b : Option SolverOutput)
    (hsa : successStatus (statusOf a) = false)
    (hsb : successStatus (statusOf b) = true) :
    (programmaticWinner a b).1 = some "optimind" := by
  have hob : isOk b = true := statusOf_success_ok b hsb
  cases hoa : isOk a with
  | false => simp [programmaticWinner, hoa, hob]
  | true => simp [programmaticWinner, hoa, hob, hsa, hsb]

lemma prog_some_nonempty (a b : Option SolverOutput) (w : String)
    (h : (programmaticWinner a b).1 = some w) : w ≠ "" := by
  rcases prog_some_cases a b w h with ⟨hw, _⟩ | ⟨hw, _⟩ <;> subst hw <;> decide

lemma sanity_nofire (w : Json) (a b : Option SolverOutput)
    (hoa : isOk a = true) (hob : isOk b = true)
    (hs : successStatus (statusOf a) = successStatus (statusOf b)) :
    sanityCheck w a b = (w, false, none) := by
  cases hsa : successStatus (statusOf a) with
  | false =>
    have hsb : successStatus (statusOf b) = false := by rw [← hs, hsa]
    simp [sanityCheck, hoa, hob, hsa, hsb]
  | true =>
    have hsb : successStatus (statusOf b) = true := by rw [← hs, hsa]
    simp [sanityCheck, hoa, hob, hsa, hsb]

lemma sanity_id_optimus (a b : Option SolverOutput)
    (hcase : isOk b = false ∨
      (successStatus (statusOf a) = true ∧ successStatus (statusOf b) = false)) :
    sanityCheck (.str "optimus") a b = (.str "optimus", false, none) := by
  rcases hcase with hob | ⟨hsa, hsb⟩
  · have hsb : successStatus (statusOf b) = false := by
      rw [statusOf_notOk b hob]
      decide
    simp [sanityCheck, hob, hsb, jsonEqStr]
  · have hoa : isOk a = true := statusOf_success_ok a hsa
    simp [sanityCheck, hsa, hsb, hoa, jsonEqStr]

lemma sanity_id_optimind (a b : Option SolverOutput)
    (hcase : isOk a = false ∨
      (successStatus (statusOf b) = true ∧ successStatus (statusOf a) = false)) :
    sanityCheck (.str "optimind") a b = (.str "optimind", false, none) := by
  rcases hcase with hoa | ⟨hsb, hsa⟩
  · have hsa : successStatus (statusOf a) = false := by
      rw [statusOf_notOk a hoa]
      decide
    simp [sanityCheck, hoa, hsa, jsonEqStr]
  · have hob : isOk b = true := statusOf_success_ok b hsb
    simp [sanityCheck, hsa, hsb, hob, jsonEqStr]

lemma sanity_override_to_optimind (w : Json) (a b : Option SolverOutput)
    (hw : jsonEqStr w "optimus" = true)
    (hsa : successStatus (statusOf a) = false)
    (hsb : successStatus (statusOf b) = true) :
    sanityCheck w a b =
      (.str "optimind", true,
        some ("LLM picked OptiMUS (" ++ statusOf a ++ ") but OptiMind succeeded (" ++
          statusOf b ++ ")")) := by
  simp [sanityCheck, hw, hsa, hsb]

lemma sanity_override_to_optimus (w : Json) (a b : Option SolverOutput)
    (hw : jsonEqStr w "optimind" = true)
    (hsa : successStatus (statusOf a) = true)
    (hsb : successStatus (statusOf b) = false) :
    sanityCheck w a b =
      (.str "optimus", true,
        some ("LLM picked OptiMind (" ++ statusOf b ++ ") but OptiMUS succeeded (" ++
          statusOf a ++ ")")) := by
  have hw2 : jsonEqStr w "optimus" = false := by
    cases w <;> simp_all [jsonEqStr]
  simp [sanityCheck, hw, hw2, hsa, hsb]


lemma buildVerdict_winner (c w : Json) (a b : Option SolverOutput) (v : Verdict)
    (h : buildVerdict c w a b = .ok v) : v.winner = w := by
  simp only [buildVerdict] at h
  split at h
  · exact Except.noConfusion h
  · split at h
    · exact Except.noConfusion h
    · split at h
      · exact Except.noConfusion h
      · split at h
        · exact Except.noConfusion h
        · cases h
          rfl

lemma evaluate_error_type (r : String) (e : PyErr)
    (h : evaluateSolutions r = .error e) : e = .typeError := by
  simp only [evaluateSolutions] at h
  split at h
  · exact Except.noConfusion h
  · split at h
    · split at h
      · rename_i e2 heq
        cases h
        exact (pyInJson_error _ _ _ heq).1
      · exact Except.noConfusion h
      · exact Except.noConfusion h
    · exact Except.noConfusion h

lemma pySetItem_error_type (j : Json) (k : String) (v : Json) (e : PyErr)
    (h : pySetItem j k v = .error e) : e = .typeError := by
  cases j <;> simp [pySetItem] at h <;> exact h.symm

lemma pyDictGet_error_attr (j : Json) (k : String) (dflt : Json) (e : PyErr)
    (h : pyDictGet j k dflt = .error e) : e = .attributeError := by
  cases j <;> simp [pyDictGet] at h <;> first | exact h.symm | skip
  rename_i kvs
  cases hf : kvs.find? (fun kv => kv.1 = k) <;> simp [hf] at h

lemma buildVerdict_error_attr (c w : Json) (a b : Option SolverOutput) (e : PyErr)
    (h : buildVerdict c w a b = .error e) : e = .attributeError := by
  simp only [buildVerdict] at h
  split at h
  · rename_i e2 heq
    cases h
    exact pyDictGet_error_attr _ _ _ _ heq
  · split at h
    · rename_i e2 heq
      cases h
      exact pyDictGet_error_attr _ _ _ _ heq
    · split at h
      · rename_i e2 heq
        cases h
        exact pyDictGet_error_attr _ _ _ _ heq
      · split at h
        · rename_i e2 heq
          cases h
          exact pyDictGet_error_attr _ _ _ _ heq
        · exact Except.noConfusion h


lemma compareLayer1_ok (pw reason : String) (a b : Option SolverOutput)
    (r : String) (res : CompareResult)
    (h : compareLayer1 pw reason a b r = .ok res) :
    res.verdict.winner = .str pw ∧ res.usedLayer2 = false ∧
      res.preWinner = .str pw ∧ res.overrideFired = false := by
  simp only [compareLayer1] at h
  split at h
  · exact Except.noConfusion h
  · split at h
    · exact Except.noConfusion h
    · split at h
      · exact Except.noConfusion h
      · split at h
        · exact Except.noConfusion h
        · rename_i v hv
          cases h
          exact ⟨buildVerdict_winner _ _ _ _ _ hv, rfl, rfl, rfl⟩

lemma compareLayer2_ok (a b : Option SolverOutput) (r : String)
    (res : CompareResult) (h : compareLayer2 a b r = .ok res) :
    res.usedLayer2 = true ∧
      res.verdict.winner = (sanityCheck res.preWinner a b).1 ∧
      res.overrideFired = (sanityCheck res.preWinner a b).2.1 := by
  simp only [compareLayer2] at h
  split at h
  · exact Except.noConfusion h
  · split at h
    · exact Except.noConfusion h
    · split at h
      · exact Except.noConfusion h
      · split at h
        · exact Except.noConfusion h
        · rename_i v hv
          cases h
          exact ⟨rfl, buildVerdict_winner _ _ _ _ _ hv, rfl⟩

lemma compareLayer1_error (pw reason : String) (a b : Option SolverOutput)
    (r : String) (e : PyErr) (h : compareLayer1 pw reason a b r = .error e) :
    e = .typeError ∨ e = .attributeError := by
  simp only [compareLayer1] at h
  split at h
  · rename_i e2 heq
    cases h
    exact Or.inl (evaluate_error_type _ _ heq)
  · split at h
    · rename_i e2 heq
      cases h
      exact Or.inl (pySetItem_error_type _ _ _ _ heq)
    · split at h
      · rename_i e2 heq
        cases h
        exact Or.inl (pySetItem_error_type _ _ _ _ heq)
      · split at h
        · rename_i e2 heq
          cases h
          exact Or.inr (buildVerdict_error_attr _ _ _ _ _ heq)
        · exact Except.noConfusion h

lemma compareLayer2_error (a b : Option SolverOutput) (r : String) (e : PyErr)
    (h : compareLayer2 a b r = .error e) :
    e = .typeError ∨ e = .attributeError := by
  simp only [compareLayer2] at h
  split at h
  · rename_i e2 heq
    cases h
    exact Or.inl (evaluate_error_type _ _ heq)
  · split at h
    · rename_i e2 heq
      cases h
      exact Or.inr (pyDictGet_error_attr _ _ _ _ heq)
    · split at h
      · rename_i e2 heq
        -- the conditional override update failed
        cases h
        split at heq
        · split at heq
          · rename_i heq2
            cases heq
            exact Or.inl (pySetItem_error_type _ _ _ _ heq2)
          · exact Or.inl (pySetItem_error_type _ _ _ _ heq)
        · exact Except.noConfusion heq
      · split at h
        · rename_i e2 heq
          cases h
          exact Or.inr (buildVerdict_error_attr _ _ _ _ _ heq)
        · exact Except.noConfusion h


/-- Which branch of `compare_solutions` handled a completed run: the guards
passed, and either the fast path fired with a nonempty winner or the LLM
branch ran. -/
lemma compare_ok_branches (d : Option String) (a b : Option SolverOutput)
    (resp : String) (res : CompareResult)
    (h : compareSolutions d a b resp = .ok res) :
    descTruthy d = true ∧ (isOk a = true ∨ isOk b = true) ∧
      ((∃ pw, (programmaticWinner a b).1 = some pw ∧
          compareLayer1 pw (programmaticWinner a b).2 a b resp = .ok res) ∨
        ((programmaticWinner a b).1 = none ∧ compareLayer2 a b resp = .ok res)) := by
  by_cases hd : descTruthy d = true
  · by_cases hok : (!isOk a && !isOk b) = true
    · exfalso
      simp [compareSolutions, hd, hok] at h
    · have hor : isOk a = true ∨ isOk b = true := by
        cases ha : isOk a <;> cases hb : isOk b <;> simp [ha, hb] at hok ⊢
      refine ⟨hd, hor, ?_⟩
      have hok2 : (!isOk a && !isOk b) = false := by
        cases hcc : (!isOk a && !isOk b)
        · rfl
        · exact absurd hcc hok
      simp only [compareSolutions, hd, hok2, Bool.not_true, Bool.false_eq_true,
        if_false] at h
      cases hp : (programmaticWinner a b).1 with
      | some pw =>
        simp only [hp] at h
        have hne := prog_some_nonempty a b pw hp
        rw [if_neg hne] at h
        exact Or.inl ⟨pw, rfl, h⟩
      | none =>
        simp only [hp] at h
        exact Or.inr ⟨rfl, h⟩
  · exfalso
    simp [compareSolutions, hd] at h

/-- For loader-built records the decision layers' status view coincides with
the stored `execution_status` (an unavailable record classifies as
`not_run` anyway). -/
lemma load_statusOf (cf of sf : Option String) (o : SolverOutput)
    (h : loadSolver true cf of sf = some o) :
    statusOf (some o) = o.execution_status := by
  simp only [loadSolver, Bool.not_true, Bool.false_eq_true, if_false] at h
  rcases Option.some.inj h.symm with rfl
  by_cases hav : ((readFileModel cf).isSome || (readFileModel of).isSome) = true
  · simp [statusOf, hav]
  · have hout : readFileModel of = none := by
      cases hof : readFileModel of
      · rfl
      · simp [hof] at hav
    simp [statusOf, hav, hout, classifyExecution]

/-! ## Claim C1 -/

/-- C1: for every pair of loader-built solver outputs on which
`compare_solutions` completes, the verdict's winner never names a variant
whose status is outside the success set while the other variant's status is
inside it; and whenever exactly one variant's status is in the success set,
the final winner is that variant regardless of the LLM response. -/
theorem judge_winner_respects_success_set
    (d : Option String) (cfA ofA sfA cfB ofB sfB : Option String)
    (a b : SolverOutput) (resp : String) (res : CompareResult)
    (ha : loadSolver true cfA ofA sfA = some a)
    (hb : loadSolver true cfB ofB sfB = some b)
    (h : compareSolutions d (some a) (some b) resp = .ok res) :
    (¬(res.verdict.winner = .str "optimus" ∧
        successStatus a.execution_status = false ∧
        successStatus b.execution_status = true)) ∧
      (¬(res.verdict.winner = .str "optimind" ∧
        successStatus b.execution_status = false ∧
        successStatus a.execution_status = true)) ∧
      (successStatus a.execution_status = true → successStatus b.execution_status = false →
        res.verdict.winner = .str "optimus") ∧
      (successStatus b.execution_status = true → successStatus a.execution_status = false →
        res.verdict.winner = .str "optimind") := by
  have hsta := load_statusOf cfA ofA sfA a ha
  have hstb := load_statusOf cfB ofB sfB b hb
  rcases compare_ok_branches d (some a) (some b) resp res h with
    ⟨hd, hor, ⟨pw, hp, h1⟩ | ⟨hp, h2⟩⟩
  · rcases compareLayer1_ok pw _ _ _ _ _ h1 with ⟨hwin, _, _, _⟩
    rcases prog_some_cases _ _ pw hp with ⟨rfl, hcase⟩ | ⟨rfl, hcase⟩
    · have hsb_false : successStatus b.execution_status = false := by
        rcases hcase with hob | ⟨hs1, hs2⟩
        · rw [← hstb, statusOf_notOk _ hob]
          decide
        · rw [← hstb]
          exact hs2
      refine ⟨?_, ?_, ?_, ?_⟩
      · rintro ⟨_, _, hcontra⟩
        rw [hsb_false] at hcontra
        exact Bool.false_ne_true hcontra
      · rintro ⟨hw2, _, _⟩
        rw [hwin] at hw2
        simp at hw2
      · intro _ _
        exact hwin
      · intro hbs _
        rw [hsb_false] at hbs
        exact absurd hbs (by decide)
    · have hsa_false : successStatus a.execution_status = false := by
        rcases hcase with hoa | ⟨hs1, hs2⟩
        · rw [← hsta, statusOf_notOk _ hoa]
          decide
        · rw [← hsta]
          exact hs2
      refine ⟨?_, ?_, ?_, ?_⟩
      · rintro ⟨hw2, _, _⟩
        rw [hwin] at hw2
        simp at hw2
      · rintro ⟨_, _, hcontra⟩
        rw [hsa_false] at hcontra
        exact Bool.false_ne_true hcontra
      · intro has _
        rw [hsa_false] at has
        exact absurd has (by decide)
      · intro _ _
        exact hwin
  · rcases prog_none_cases _ _ hp with ⟨hoa, hob⟩ | ⟨hoa, hob, hss⟩
    · exfalso
      rcases hor with h' | h' <;> simp_all
    · have hss2 : successStatus a.execution_status = successStatus b.execution_status := by
        rw [← hsta, ← hstb]
        exact hss
      refine ⟨?_, ?_, ?_, ?_⟩
      · rintro ⟨_, h1', h2'⟩
        rw [hss2, h2'] at h1'
        exact absurd h1' (by decide)
      · rintro ⟨_, h1', h2'⟩
        rw [← hss2, h2'] at h1'
        exact absurd h1' (by decide)
      · intro h1' h2'
        rw [hss2, h2'] at h1'
        exact absurd h1' (by decide)
      · intro h1' h2'
        rw [← hss2, h2'] at h1'
        exact absurd h1' (by decide)

/-- Loader record for a proven-optimal run with objective 280.0. -/
def c1RecordA : SolverOutput :=
  { code := some "print(1)", code_output_raw := some "Optimal solution found",
    objective_raw := some "280.0", objective_value := some (.finite 280 1),
    execution_status := "optimal", direction := none, available := true }

/-- Loader record for a crashed run (traceback, no artifact). -/
def c1RecordB : SolverOutput :=
  { code := some "print(2)", code_output_raw := some "Traceback (most recent call last):",
    objective_raw := none, objective_value := none,
    execution_status := "error", direction := none, available := true }

/-- An LLM comparison response picking OptiMind. -/
def c1Resp : String := "\x7b\"winner\": \"optimind\"\x7d"

/-- The comparison dict after the fast path overwrites the LLM's pick. -/
def c1Comparison : Json :=
  .obj [("winner", .str "optimus"),
        ("programmatic_reason", .str "OptiMUS succeeded (optimal), OptiMind failed (error)")]

/-- The completed compare run for the optimal-vs-error pair. -/
def c1Result : CompareResult :=
  { verdict :=
      { winner := .str "optimus", objective_value := some (.finite 280 1),
        direction := .str "unknown",
        optimus_status := "success", optimus_objective := some (.finite 280 1),
        optimind_status := "error", optimind_objective := none,
        reasoning := .str "", optimus_assessment := .str "", optimind_assessment := .str "" }
    usedLayer2 := false
    preWinner := .str "optimus"
    overrideFired := false
    finalComparison := c1Comparison }

/-- Witness for C1: an optimal OptiMUS against a crashed OptiMind, with an
adversarial LLM response picking OptiMind, still yields winner `optimus`. -/
theorem judge_winner_respects_success_set_check :
    c1Result.verdict.winner = .str "optimus" := by
  have h := judge_winner_respects_success_set (some "desc") (some "print(1)")
    (some "Optimal solution found") (some "280.0") (some "print(2)")
    (some "Traceback (most recent call last):") none c1RecordA c1RecordB c1Resp c1Result
    (by decide) (by decide) (by rfl)
  exact h.2.2.1 rfl rfl

/-! ## Claim C5 -/

/-- A loader record that is available but carries no usable result. -/
def c5Record : SolverOutput :=
  { code := some "print(1)", code_output_raw := some "ran fine",
    objective_raw := none, objective_value := none,
    execution_status := "no_result", direction := none, available := true }

/-- C5 counterexample: with the problem description missing,
`compare_solutions` raises even though one variant produced output — so
"raises if and only if neither variant produced any output" fails (and the
raised error is the missing-description one, not the no-verdict one). -/
theorem compare_raises_with_output_counterexample :
    compareSolutions none (some c5Record) none "x" = .error .fileNotFoundError
      ∧ isOk (some c5Record) = true
      ∧ PyErr.fileNotFoundError ≠ PyErr.runtimeError :=
  ⟨rfl, rfl, by decide⟩

/-- C5 (amended): given a present problem description,
`compare_solutions` raises the no-verdict error exactly when neither
variant produced output (a missing description raises a different error
first, and degenerate LLM responses can raise type/attribute errors); and
whenever exactly one variant produced output, the fast path declares that
variant the winner with the "only X produced output" reason — before any
success-set comparison, hence even when its status is outside the success
set. -/
theorem compare_raise_characterization (d : Option String)
    (a b : Option SolverOutput) (resp : String) :
    (compareSolutions d a b resp = .error .runtimeError ↔
        (descTruthy d = true ∧ isOk a = false ∧ isOk b = false)) ∧
      (isOk a = true → isOk b = false →
        programmaticWinner a b = (some "optimus", "only OptiMUS produced output")) ∧
      (isOk a = false → isOk b = true →
        programmaticWinner a b = (some "optimind", "only OptiMind produced output")) := by
  refine ⟨⟨?_, ?_⟩, ?_, ?_⟩
  · intro h
    by_cases hd : descTruthy d = true
    · by_cases hok : (!isOk a && !isOk b) = true
      · have : isOk a = false ∧ isOk b = false := by
          cases ha : isOk a <;> cases hb : isOk b <;> simp [ha, hb] at hok ⊢
        exact ⟨hd, this.1, this.2⟩
      · exfalso
        have hok2 : (!isOk a && !isOk b) = false := by
          cases hcc : (!isOk a && !isOk b)
          · rfl
          · exact absurd hcc hok
        simp only [compareSolutions, hd, hok2, Bool.not_true, Bool.false_eq_true,
          if_false] at h
        cases hp : (programmaticWinner a b).1 with
        | some pw =>
          simp only [hp] at h
          have hne := prog_some_nonempty a b pw hp
          rw [if_neg hne] at h
          rcases compareLayer1_error _ _ _ _ _ _ h with h' | h' <;> exact PyErr.noConfusion h'
        | none =>
          simp only [hp] at h
          rcases compareLayer2_error _ _ _ _ h with h' | h' <;> exact PyErr.noConfusion h'
    · exfalso
      simp [compareSolutions, hd] at h
  · rintro ⟨hd, ha, hb⟩
    simp [compareSolutions, hd, ha, hb]
  · intro ha hb
    simp [programmaticWinner, ha, hb]
  · intro ha hb
    simp [programmaticWinner, ha, hb]

/-- Witness for the amended C5: no output at all raises the no-verdict
error, and an infeasible-only variant still wins the only-output rule. -/
theorem compare_raise_characterization_check :
    compareSolutions (some "desc") none none "x" = .error .runtimeError ∧
      programmaticWinner (some c5Record) none =
        (some "optimus", "only OptiMUS produced output") := by
  have h1 := compare_raise_characterization (some "desc")
    (none : Option SolverOutput) (none : Option SolverOutput) "x"
  have h2 := compare_raise_characterization (some "desc")
    (some c5Record) (none : Option SolverOutput) "x"
  exact ⟨h1.1.mpr ⟨rfl, rfl, rfl⟩, h2.2.1 rfl rfl⟩

/-! ## Claims C7 and C9 -/

/-- C7: the sanity-check override governs the final winner — for every
completed run the verdict's winner equals the sanity-checked value of the
pre-override winner (the fast path's winner passes the check unchanged, the
LLM branch applies it explicitly); and whenever the selected variant's
status is outside the success set while the other's is inside, the check
overrides the winner to the other variant and reports the override with its
reason. -/
theorem sanity_check_governs_final_winner (d : Option String)
    (a b : Option SolverOutput) (resp : String) (res : CompareResult) (w : Json) :
    (compareSolutions d a b resp = .ok res →
        res.verdict.winner = (sanityCheck res.preWinner a b).1) ∧
      (jsonEqStr w "optimus" = true → successStatus (statusOf a) = false →
        successStatus (statusOf b) = true →
        sanityCheck w a b =
          (.str "optimind", true,
            some ("LLM picked OptiMUS (" ++ statusOf a ++ ") but OptiMind succeeded (" ++
              statusOf b ++ ")"))) ∧
      (jsonEqStr w "optimind" = true → successStatus (statusOf b) = false →
        successStatus (statusOf a) = true →
        sanityCheck w a b =
          (.str "optimus", true,
            some ("LLM picked OptiMind (" ++ statusOf b ++ ") but OptiMUS succeeded (" ++
              statusOf a ++ ")"))) := by
  refine ⟨?_, ?_, ?_⟩
  · intro h
    rcases compare_ok_branches d a b resp res h with
      ⟨hd, hor, ⟨pw, hp, h1⟩ | ⟨hp, h2⟩⟩
    · rcases compareLayer1_ok pw _ _ _ _ _ h1 with ⟨hwin, _, hpre, _⟩
      rw [hwin, hpre]
      rcases prog_some_cases _ _ pw hp with ⟨rfl, hcase⟩ | ⟨rfl, hcase⟩
      · rw [sanity_id_optimus a b hcase]
      · rw [sanity_id_optimind a b hcase]
    · rcases compareLayer2_ok _ _ _ _ h2 with ⟨_, hwin, _⟩
      exact hwin
  · intro hw hsa hsb
    exact sanity_override_to_optimind w a b hw hsa hsb
  · intro hw hsb hsa
    exact sanity_override_to_optimus w a b hw hsa hsb

/-- Loader record for an optimal run with objective 5 (first variant). -/
def c7RecordA : SolverOutput :=
  { code := some "print(1)", code_output_raw := some "Optimal solution found",
    objective_raw := some "5", objective_value := some (.finite 5 1),
    execution_status := "optimal", direction := none, available := true }

/-- Loader record for an optimal run with objective 5 (second variant). -/
def c7RecordB : SolverOutput :=
  { code := some "print(2)", code_output_raw := some "Optimal solution found",
    objective_raw := some "5", objective_value := some (.finite 5 1),
    execution_status := "optimal", direction := none, available := true }

/-- The completed Layer-2 compare run for the equal-objective pair. -/
def c7Result : CompareResult :=
  { verdict :=
      { winner := .str "optimind", objective_value := some (.finite 5 1),
        direction := .str "unknown",
        optimus_status := "success", optimus_objective := some (.finite 5 1),
        optimind_status := "success", optimind_objective := some (.finite 5 1),
        reasoning := .str "", optimus_assessment := .str "", optimind_assessment := .str "" }
    usedLayer2 := true
    preWinner := .str "optimind"
    overrideFired := false
    finalComparison := .obj [("winner", .str "optimind")] }

/-- Witness for C7: a completed Layer-2 run whose winner equals its
sanity-checked pre-winner, and a concrete override of a failing pick. -/
theorem sanity_check_governs_final_winner_check :
    c7Result.verdict.winner =
        (sanityCheck c7Result.preWinner (some c7RecordA) (some c7RecordB)).1 ∧
      sanityCheck (.str "optimus") (some c1RecordB) (some c1RecordA) =
        (.str "optimind", true,
          some "LLM picked OptiMUS (error) but OptiMind succeeded (optimal)") := by
  have h1 := (sanity_check_governs_final_winner (some "desc") (some c7RecordA)
    (some c7RecordB) c1Resp c7Result (.str "optimus")).1 (by rfl)
  have h2 := (sanity_check_governs_final_winner (some "desc") (some c1RecordB)
    (some c1RecordA) c1Resp c7Result (.str "optimus")).2.1 rfl rfl rfl
  exact ⟨h1, h2⟩

/-- C9: in every completed run of `compare_solutions` the sanity-check
override never fires; the LLM branch is reached only when both variants are
available with statuses on the same side of the success set, so the check
returns the LLM's winner unchanged with `was_overridden = False`. -/
theorem sanity_override_never_fires (d : Option String)
    (a b : Option SolverOutput) (resp : String) (res : CompareResult)
    (h : compareSolutions d a b resp = .ok res) :
    res.overrideFired = false ∧
      (res.usedLayer2 = true →
        res.verdict.winner = res.preWinner ∧
          isOk a = true ∧ isOk b = true ∧
          successStatus (statusOf a) = successStatus (statusOf b)) := by
  rcases compare_ok_branches d a b resp res h with
    ⟨hd, hor, ⟨pw, hp, h1⟩ | ⟨hp, h2⟩⟩
  · rcases compareLayer1_ok pw _ _ _ _ _ h1 with ⟨hwin, hl2, hpre, hov⟩
    refine ⟨hov, ?_⟩
    intro hl2'
    rw [hl2] at hl2'
    exact absurd hl2' (by decide)
  · rcases prog_none_cases _ _ hp with ⟨hoa, hob⟩ | ⟨hoa, hob, hss⟩
    · exfalso
      rcases hor with h' | h' <;> simp_all
    · rcases compareLayer2_ok _ _ _ _ h2 with ⟨hl2, hwin, hov⟩
      have hno := sanity_nofire res.preWinner a b hoa hob hss
      refine ⟨?_, ?_⟩
      · rw [hov, hno]
      · intro _
        refine ⟨?_, hoa, hob, hss⟩
        rw [hwin, hno]

/-- Witness for C9: a completed Layer-2 run with no override. -/
theorem sanity_override_never_fires_check :
    c7Result.overrideFired = false ∧ c7Result.verdict.winner = c7Result.preWinner := by
  have h := sanity_override_never_fires (some "desc") (some c7RecordA)
    (some c7RecordB) c1Resp c7Result (by rfl)
  exact ⟨h.1, (h.2 rfl).1⟩

/-! ## backend/optimind.py — code extraction, trailer patch, repair loop -/

/-- Python regex `\w` (ASCII view). -/
def isWordChar (c : Char) : Bool :=
  c.isAlpha || c.isDigit || c = '_'

/-- Python regex `\s` (ASCII view, same set as `str.strip`). -/
def isReWs (c : Char) : Bool := pyWsChar c

/-- Tail of the model-variable pattern after `gp.` handling: `Model\s*\(`. -/
def matchModelParen (cs : List Char) : Bool :=
  if startsWithChars "Model".toList cs then
    match (cs.drop 5).dropWhile isReWs with
    | '(' :: _ => true
    | _ => false
  else false

/-- Tail of `(\w+)\s*=\s*(?:gp\.)?Model\s*\(` after the captured word. -/
def tailMatches (cs : List Char) : Bool :=
  match cs.dropWhile isReWs with
  | '=' :: r =>
    let c2 := r.dropWhile isReWs
    (startsWithChars "gp.".toList c2 && matchModelParen (c2.drop 3)) || matchModelParen c2
  | _ => false

/-- Attempt the model-variable pattern at this position; the `\w+` capture
is the maximal word run (shorter captures cannot be followed by `=`). -/
def varAt (cs : List Char) : Option String :=
  match cs with
  | [] => none
  | c :: _ =>
    if isWordChar c then
      let w := cs.takeWhile isWordChar
      if tailMatches (cs.drop w.length) then some (String.mk w) else none
    else none

/-- Leftmost match of the model-variable pattern. -/
def scanModelVar : List Char → Option String
  | [] => none
  | c :: cs =>
    match varAt (c :: cs) with
    | some w => some w
    | none => scanModelVar cs

/-- Embedding of `_find_model_var`: regex search with fallback `"model"`. -/
def findModelVar (code : String) : String :=
  match scanModelVar code.toList with
  | some v => v
  | none => "model"

/-- The `SOLUTION_TEMPLATE` trailer of `optimind.py`, with the model
variable name substituted (`.format(var=...)` applied). -/
def solutionTemplate (var : String) : String :=
  "\n\n# --- Optima: save objective value ---\nif " ++ var ++
  ".status == GRB.OPTIMAL:\n    with open(\"output_solution.txt\", \"w\") as _f:\n        _f.write(str(" ++
  var ++ ".objVal))\n    print(\"Optimal Objective Value:\", " ++ var ++
  ".objVal)\nelse:\n    with open(\"output_solution.txt\", \"w\") as _f:\n        _f.write(str(" ++
  var ++ ".status))\n    print(\"Model status:\", " ++ var ++ ".status)\n"

/-- Embedding of `_patch_code`. -/
def patchCode (code : String) : String :=
  if pyContainsSub code "output_solution.txt" then code
  else code ++ solutionTemplate (findModelVar code)

/-- The `\s*\n` piece of the code-block pattern: greedily consume the
whitespace run through its last newline (fails when the run has none). -/
def matchAfterLang (cs : List Char) : Option (List Char) :=
  let run := cs.takeWhile isReWs
  match lastSubIdxAux ['\n'] run 0 with
  | none => none
  | some k => some (cs.drop (k + 1))

/-- One match of the block pattern (from the regex of `_extract_code`)
starting exactly here: the fenced body and the remaining input. -/
def blockAt (cs : List Char) : Option (String × List Char) :=
  if startsWithChars "```".toList cs then
    let afterTicks := cs.drop 3
    let tryPy : Option (List Char) :=
      if startsWithChars "python".toList afterTicks then
        matchAfterLang (afterTicks.drop 6)
      else none
    let afterLang : Option (List Char) :=
      match tryPy with
      | some r => some r
      | none => matchAfterLang afterTicks
    match afterLang with
    | none => none
    | some rem =>
      match findSubAux "```".toList rem 0 with
      | none => none
      | some j => some (String.mk (rem.take j), rem.drop (j + 3))
  else none

/-- `re.findall` over the response: scan left to right, resuming after each
match; matched bodies are stripped as in the list comprehension. -/
def scanBlocks : Nat → List Char → List String → List String
  | 0, _, acc => acc.reverse
  | fuel + 1, cs, acc =>
    match cs with
    | [] => acc.reverse
    | c :: rest =>
      match blockAt (c :: rest) with
      | some (body, rem) => scanBlocks fuel rem (pyStrip body :: acc)
      | none => scanBlocks fuel rest acc

/-- Embedding of `_extract_code`: prefer a gurobipy-importing block, fall
back to the first block, `none` when there are no blocks. -/
def extractCode (response : String) : Option String :=
  let blocks := scanBlocks (response.length + 1) response.toList []
  match blocks with
  | [] => none
  | b0 :: _ =>
    match blocks.find? (fun b => pyContainsSub b "gurobipy" &&
        (pyContainsSub b "import gurobipy" || pyContainsSub b "from gurobipy")) with
    | some b => some b
    | none => some b0

/-- Observable trace of one `_execute_and_debug` run: final code/output and
success flag (the function's return value), the `error_i.txt` and code-file
writes, and how many executions, fixer calls and loop iterations ran. -/
structure RepairTrace where
  finalCode : String
  finalOutput : String
  success : Bool
  errorWrites : List (Nat × String)
  codeWrites : List (String × String)
  execCalls : Nat
  fixCalls : Nat
  itersRun : Nat

/-- The `for attempt in range(1, max_retries + 1)` loop of
`_execute_and_debug`, with the subprocess and the fixer LLM as oracles
indexed by call count (`_debug_code` is `extractCode` applied to the
fixer's response).  The `remaining = 0` case performs the post-loop
`error_{max_retries}.txt` write. -/
def repairIterate (execO : Nat → String × Bool) (fixO : Nat → String) :
    String → String → Nat → Nat → Nat → Nat → RepairTrace
  | code, output, attempt, 0, _, _ =>
    { finalCode := code, finalOutput := output, success := false,
      errorWrites := [(attempt - 1, output)], codeWrites := [],
      execCalls := 0, fixCalls := 0, itersRun := 0 }
  | code, output, attempt, n + 1, execIdx, fixIdx =>
    match extractCode (fixO fixIdx) with
    | none =>
      let rest := repairIterate execO fixO code output (attempt + 1) n execIdx (fixIdx + 1)
      { rest with errorWrites := (attempt - 1, output) :: rest.errorWrites,
                  fixCalls := rest.fixCalls + 1, itersRun := rest.itersRun + 1 }
    | some fixed0 =>
      let fixed := patchCode fixed0
      let execRes := execO execIdx
      if execRes.2 then
        { finalCode := fixed, finalOutput := execRes.1, success := true,
          errorWrites := [(attempt - 1, output)],
          codeWrites := [("optimind_code_" ++ toString attempt ++ ".py", fixed),
                         ("optimind_code.py", fixed)],
          execCalls := 1, fixCalls := 1, itersRun := 1 }
      else
        let rest := repairIterate execO fixO fixed execRes.1 (attempt + 1) n (execIdx + 1) (fixIdx + 1)
        { rest with errorWrites := (attempt - 1, output) :: rest.errorWrites,
                    codeWrites := ("optimind_code_" ++ toString attempt ++ ".py", fixed) :: rest.codeWrites,
                    execCalls := rest.execCalls + 1, fixCalls := rest.fixCalls + 1,
                    itersRun := rest.itersRun + 1 }

/-- The retry budget of the OptiMind backend's debug loop. -/
def DEBUG_MAX_RETRIES : Nat := 5

/-- Embedding of `_execute_and_debug`: initial write and execution, then
the repair loop on failure. -/
def executeAndDebug (code : String) (execO : Nat → String × Bool) (fixO : Nat → String)
    (maxRetries : Nat) : RepairTrace :=
  let first := execO 0
  if first.2 then
    { finalCode := code, finalOutput := first.1, success := true,
      errorWrites := [], codeWrites := [("optimind_code.py", code)],
      execCalls := 1, fixCalls := 0, itersRun := 0 }
  else
    let t := repairIterate execO fixO code first.1 1 maxRetries 1 0
    { t with execCalls := t.execCalls + 1,
             codeWrites := ("optimind_code.py", code) :: t.codeWrites }

/-- Number of fixer responses among calls `start..start+n-1` that contain an
extractable code block. -/
def countExtractable (fixO : Nat → String) : Nat → Nat → Nat
  | _, 0 => 0
  | start, n + 1 =>
    (if (extractCode (fixO start)).isSome then 1 else 0) + countExtractable fixO (start + 1) n

/-- Trace shape of the repair loop when every execution fails, by induction
on the remaining budget. -/
lemma repairIterate_allFail (execO : Nat → String × Bool) (fixO : Nat → String)
    (hfail : ∀ k, (execO k).2 = false) :
    ∀ (n attempt : Nat), 1 ≤ attempt → ∀ (code output : String) (execIdx fixIdx : Nat),
      (repairIterate execO fixO code output attempt n execIdx fixIdx).success = false ∧
      (repairIterate execO fixO code output attempt n execIdx fixIdx).itersRun = n ∧
      (repairIterate execO fixO code output attempt n execIdx fixIdx).errorWrites.map Prod.fst =
        List.range' (attempt - 1) (n + 1) ∧
      (repairIterate execO fixO code output attempt n execIdx fixIdx).fixCalls = n ∧
      (repairIterate execO fixO code output attempt n execIdx fixIdx).execCalls =
        countExtractable fixO fixIdx n := by
  intro n
  induction n with
  | zero =>
    intro attempt hatt code output execIdx fixIdx
    refine ⟨rfl, rfl, ?_, rfl, rfl⟩
    simp [repairIterate, List.range']
  | succ m ih =>
    intro attempt hatt code output execIdx fixIdx
    have h1 : attempt + 1 - 1 = attempt - 1 + 1 := by omega
    cases hx : extractCode (fixO fixIdx) with
    | none =>
      rcases ih (attempt + 1) (by omega) code output execIdx (fixIdx + 1) with
        ⟨i1, i2, i3, i4, i5⟩
      simp only [repairIterate, hx]
      refine ⟨i1, by rw [i2], ?_, by rw [i4], ?_⟩
      · simp only [List.map_cons, i3, h1]
        rfl
      · simp [countExtractable, hx, i5]
    | some f =>
      have hf := hfail execIdx
      rcases ih (attempt + 1) (by omega) (patchCode f) (execO execIdx).1 (execIdx + 1)
        (fixIdx + 1) with ⟨i1, i2, i3, i4, i5⟩
      simp only [repairIterate, hx, hf, Bool.false_eq_true, if_false]
      refine ⟨i1, by rw [i2], ?_, by rw [i4], ?_⟩
      · simp only [List.map_cons, i3, h1]
        rfl
      · simp [countExtractable, hx, i5]
        omega

/-! ## Claim C4 -/

/-- C4: when every execution fails, `_execute_and_debug` with the OptiMind
retry budget runs exactly 5 repair iterations (not 4, not 6), returns
`success = False`, persists error artifacts under attempt indices 0 through
5, calls the fixer once per iteration, and executes the program once
initially plus once per iteration whose fixer response contained an
extractable code block — an iteration without one consumes its retry slot
without re-executing. -/
theorem repair_loop_exhausts_exact_budget (code : String)
    (execO : Nat → String × Bool) (fixO : Nat → String)
    (hfail : ∀ k, (execO k).2 = false) :
    (executeAndDebug code execO fixO DEBUG_MAX_RETRIES).success = false ∧
      (executeAndDebug code execO fixO DEBUG_MAX_RETRIES).itersRun = 5 ∧
      (executeAndDebug code execO fixO DEBUG_MAX_RETRIES).errorWrites.map Prod.fst =
        [0, 1, 2, 3, 4, 5] ∧
      (executeAndDebug code execO fixO DEBUG_MAX_RETRIES).fixCalls = 5 ∧
      (executeAndDebug code execO fixO DEBUG_MAX_RETRIES).execCalls =
        1 + countExtractable fixO 0 5 := by
  have h0 := hfail 0
  rcases repairIterate_allFail execO fixO hfail 5 1 (by omega) code (execO 0).1 1 0 with
    ⟨i1, i2, i3, i4, i5⟩
  simp only [executeAndDebug, DEBUG_MAX_RETRIES, h0, Bool.false_eq_true, if_false]
  refine ⟨i1, i2, ?_, i4, ?_⟩
  · rw [i3]
    rfl
  · omega

/-- An always-failing execution oracle. -/
def c4ExecO : Nat → String × Bool := fun _ => ("Traceback (most recent call last):", false)

/-- A fixer oracle alternating between a usable code block and no block. -/
def c4FixO : Nat → String := fun k =>
  if k % 2 = 0 then "```python\nimport gurobipy as gp\nfrom gurobipy import GRB\n```"
  else "no code block here"

/-- Witness for C4 at concrete oracles: 5 iterations, error files 0–5, and
1 + 3 executions because iterations 2 and 4 had no extractable block. -/
theorem repair_loop_exhausts_exact_budget_check :
    (executeAndDebug "x = 1" c4ExecO c4FixO DEBUG_MAX_RETRIES).success = false ∧
      (executeAndDebug "x = 1" c4ExecO c4FixO DEBUG_MAX_RETRIES).itersRun = 5 ∧
      (executeAndDebug "x = 1" c4ExecO c4FixO DEBUG_MAX_RETRIES).errorWrites.map Prod.fst =
        [0, 1, 2, 3, 4, 5] ∧
      (executeAndDebug "x = 1" c4ExecO c4FixO DEBUG_MAX_RETRIES).execCalls = 4 ∧
      countExtractable c4FixO 0 5 = 3 := by
  have h := repair_loop_exhausts_exact_budget "x = 1" c4ExecO c4FixO (fun k => rfl)
  have hc : countExtractable c4FixO 0 5 = 3 := by rfl
  refine ⟨h.1, h.2.1, h.2.2.1, ?_, hc⟩
  rw [h.2.2.2.2, hc]

/-! ## optimus_utils.py / step05_objective_model.py — delimited extractor -/

/-- Embedding of `extract_equal_sign_closed`: slice between the first two
`=====` markers.  `str.find` returns `-1` when a marker is missing and the
Python slice then degenerates instead of raising. -/
def extractEqualSignClosed (text : String) : String :=
  let ind1 := pyFind text "====="
  let ind2 := pyFindFrom text "=====" (ind1 + 1)
  pyStrip (pySlice text (ind1 + 6) ind2)

/-- The `while k > 0` loop of `get_objective_formulation`, with the Gateway
as an oracle indexed by call count; returns the loop's outcome and the
number of Gateway calls made.  On an exception `k` is decremented and the
loop re-raises as soon as `k` reaches zero. -/
def objectiveFormulationLoop (respO : Nat → Except Unit String) :
    Nat → Nat → Except Unit String × Nat
  | 0, callIdx => (.error (), callIdx)
  | kk + 1, callIdx =>
    match respO callIdx with
    | .ok res => (.ok (extractEqualSignClosed res), callIdx + 1)
    | .error e =>
      if kk = 0 then (.error e, callIdx + 1)
      else objectiveFormulationLoop respO kk (callIdx + 1)

/-- Embedding of `get_objective_formulation`: the loop is entered with
`k = 1`; on success the result dict pairs the objective description with
the extracted formulation. -/
def getObjectiveFormulation (objectiveDescription : String)
    (respO : Nat → Except Unit String) : Except Unit (String × String) × Nat :=
  match objectiveFormulationLoop respO 1 0 with
  | (.ok f, n) => (.ok (objectiveDescription, f), n)
  | (.error e, n) => (.error e, n)

/-! ## Claim C8 -/

/-- C8 counterexample: with a Gateway that always fails, the
objective-formulation extractor makes exactly one call — not two — before
propagating; and a response without `=====` markers does not raise at all:
the extractor returns a degenerate slice (here `"g"` from `"garbage"`)
after a single call. -/
theorem objective_formulation_single_call_counterexample :
    getObjectiveFormulation "goal" (fun _ => .error ()) = (.error (), 1)
      ∧ (1 : Nat) ≠ 2
      ∧ getObjectiveFormulation "goal" (fun _ => .ok "garbage") =
          (.ok ("goal", "g"), 1)
      ∧ extractEqualSignClosed "garbage" = "g" :=
  ⟨rfl, by decide, rfl, rfl⟩

/-- C8 (amended): the objective-formulation extractor performs no local
retry — its retry counter admits a single attempt, so it makes exactly one
Gateway call in every case: a Gateway failure propagates immediately, and
the delimiter parse itself never raises (an ill-delimited response yields a
degenerate sliced formulation instead of an error). -/
theorem objective_formulation_no_retry (desc : String)
    (respO : Nat → Except Unit String) :
    (getObjectiveFormulation desc respO).2 = 1 ∧
      (∀ s, respO 0 = .ok s →
        (getObjectiveFormulation desc respO).1 = .ok (desc, extractEqualSignClosed s)) ∧
      (∀ e, respO 0 = .error e →
        (getObjectiveFormulation desc respO).1 = .error e) := by
  cases h : respO 0 with
  | ok s =>
    refine ⟨?_, ?_, ?_⟩
    · simp [getObjectiveFormulation, objectiveFormulationLoop, h]
    · intro s2 hs2
      cases hs2
      simp [getObjectiveFormulation, objectiveFormulationLoop, h]
    · intro e he
      exact Except.noConfusion he
  | error e =>
    refine ⟨?_, ?_, ?_⟩
    · simp [getObjectiveFormulation, objectiveFormulationLoop, h]
    · intro s2 hs2
      exact Except.noConfusion hs2
    · intro e2 he2
      cases he2
      simp [getObjectiveFormulation, objectiveFormulationLoop, h]

/-- Witness for the amended C8 at an always-failing Gateway. -/
theorem objective_formulation_no_retry_check :
    (getObjectiveFormulation "goal" (fun _ => .error ())).2 = 1 ∧
      (getObjectiveFormulation "goal" (fun _ => .error ())).1 = .error () := by
  have h := objective_formulation_no_retry "goal" (fun _ => .error ())
  exact ⟨h.1, h.2.2 () rfl⟩

/-! ## optimind.py — objective artifact contract (claim C10) -/

/-- Gurobi's documented `GRB.OPTIMAL` status code (the trailer compares the
model status against it; `GRB.INFEASIBLE = 3`, `GRB.TIME_LIMIT = 9`). -/
def GRB_OPTIMAL : Int := 2

/-- What the appended `SOLUTION_TEMPLATE` trailer writes to
`output_solution.txt` when the patched program runs: the direct
transcription of the template's two branches — `str({var}.objVal)` when the
status equals `GRB.OPTIMAL`, otherwise `str({var}.status)`, the numeric
status code itself. -/
def trailerWrittenContent (status : Int) (objValRepr : String) : String :=
  if status = GRB_OPTIMAL then objValRepr else toString status

/-- The artifact reader of `run_pipeline` (src/optimind.py, step 5): a
missing file yields `None`; otherwise `float(raw)` is attempted and the raw
string kept as a non-numeric status on failure. -/
def runPipelineObjectiveValue (artifactFile : Option String) :
    Option (PyFloat ⊕ String) :=
  match artifactFile with
  | none => none
  | some content =>
    let raw := pyStrip content
    match pyFloatParse raw with
    | some f => some (.inl f)
    | none => some (.inr raw)

/-- Loader record for an infeasible run whose artifact holds the status
code `3` written by the trailer. -/
def c10Record : SolverOutput :=
  { code := some "import gurobipy", code_output_raw := some "Model is infeasible",
    objective_raw := some "3", objective_value := some (.finite 3 1),
    execution_status := "infeasible", direction := none, available := true }

set_option maxRecDepth 8192 in
/-- C10: the artifact contract conflates status codes with objective
values.  The trailer writes the numeric Gurobi status code (`"3"` for
infeasible, `"9"` for time limit) whenever the model status is not optimal;
both the pipeline reader and the judge's objective parser accept any
numeric string via `float()`, so such a run is loaded with
`objective_value = 3.0` — a status code reported as an objective; and the
code patch indeed appends the status-writing trailer referencing the
detected model variable. -/
theorem solution_artifact_status_conflation :
    trailerWrittenContent 3 "no objective available" = "3"
      ∧ trailerWrittenContent 9 "no objective available" = "9"
      ∧ runPipelineObjectiveValue (some "3") = some (.inl (.finite 3 1))
      ∧ parseObjective (some "3") = some (.finite 3 1)
      ∧ loadSolver true (some "import gurobipy") (some "Model is infeasible")
          (some "3") = some c10Record
      ∧ c10Record.execution_status = "infeasible"
      ∧ c10Record.objective_value = some (.finite 3 1)
      ∧ pyContainsSub (patchCode "m = gp.Model(\"x\")\nm.optimize()")
          "_f.write(str(m.status))" = true :=
  ⟨rfl, rfl, rfl, rfl, by decide, rfl, rfl, rfl⟩

end OptiMax
